import Mathlib

/-!
Shallow embedding of the promptivd relay daemon core (src/src/models.rs,
src/src/handlers.rs, src/src/websocket.rs) and proofs about it.

Rust strings are modelled as Lean `String`; `str::is_empty()` is the test
`s = ""` and `str::trim()` is `String.trim` (both trim ASCII whitespace on
the inputs considered here).  Machine integers (`u32`, `usize`, `u64`) are
modelled as `Nat`: none of the verified paths can overflow (counters are
only incremented a bounded number of times before the session closes).
Instants are modelled as `Nat` timestamps; `Instant::elapsed()` at time
`now` for a ping sent at `lp` is `now - lp`.
-/

namespace Promptivd

/-- `serde_json::Value`: opaque JSON metadata carried through unchanged. -/
inductive Json where
  | null : Json
  | bool : Bool → Json
  | num : Int → Json
  | str : String → Json
  | arr : List Json → Json
  | obj : List (String × Json) → Json

/-- `models.rs` `Placement`. -/
inductive Placement where
  | top
  | bottom
  | cursor
deriving DecidableEq, Repr

/-- `models.rs` `SessionDirective`. -/
inductive SessionDirective where
  | reuseOrCreate
  | reuseOnly
  | startFresh
deriving DecidableEq, Repr

/-- `models.rs` `SourceInfo`. -/
structure SourceInfo where
  client : String
  label : Option String
  path : Option String
deriving DecidableEq, Repr

/-- `models.rs` `TargetSpec`. -/
structure TargetSpec where
  provider : Option String
  session_directive : Option SessionDirective
deriving DecidableEq, Repr

/-- `models.rs` `InsertTextRequest`. -/
structure InsertTextRequest where
  schema_version : String
  source : SourceInfo
  text : String
  placement : Option Placement
  target : Option TargetSpec
  metadata : Json

/-- `error.rs` `ValidationError`. -/
inductive ValidationError where
  | missingField : String → ValidationError
  | invalidSchemaVersion : String → ValidationError
  | emptySnippet
deriving DecidableEq, Repr

/-- Rust `str::trim`: remove whitespace from both ends of the string
(restricted to the ASCII whitespace recognised by `Char.isWhitespace`,
which agrees with Rust's `char::is_whitespace` on all inputs considered
here). -/
def rustTrim (s : String) : String :=
  ⟨((s.data.dropWhile Char.isWhitespace).reverse.dropWhile Char.isWhitespace).reverse⟩

/-- `models.rs` `InsertTextRequest::validate` (lines 45-73): schema version
check, then `source.client.is_empty()` (no trim), then `text.trim().is_empty()`,
then, when a target with a provider is present, `provider.trim().is_empty()`. -/
def InsertTextRequest.validate (r : InsertTextRequest) : Except ValidationError Unit :=
  if r.schema_version ≠ "1.0" then
    .error (.invalidSchemaVersion r.schema_version)
  else if r.source.client = "" then
    .error (.missingField "source.client")
  else if rustTrim r.text = "" then
    .error .emptySnippet
  else
    match r.target with
    | some t =>
      match t.provider with
      | some p =>
        if rustTrim p = "" then .error (.missingField "target.provider") else .ok ()
      | none => .ok ()
    | none => .ok ()

/-- `error.rs` `AppError`, restricted to the variants reachable from the
ingress checks in `handlers.rs` `append_job`. -/
inductive AppErr where
  | payloadTooLarge : Nat → Nat → AppErr
  | invalidRequest : ValidationError → AppErr
  | noSink : AppErr
deriving DecidableEq, Repr

/-- `handlers.rs` `append_job` (lines 31-53), the checks before dispatch.
`payloadSize` is the byte length of `serde_json::to_string(&payload)`,
passed in as a parameter (the JSON encoder is a library call).  The source
checks the size bound FIRST (lines 36-42), then runs `validate` (lines
44-47), then the `require_sink` gate (lines 50-53). -/
def append_job_check (payloadSize maxJobBytes : Nat) (requireSink hasActiveSink : Bool)
    (r : InsertTextRequest) : Except AppErr Unit :=
  if maxJobBytes < payloadSize then
    .error (.payloadTooLarge payloadSize maxJobBytes)
  else
    match r.validate with
    | .error e => .error (.invalidRequest e)
    | .ok _ =>
      if requireSink && !hasActiveSink then .error .noSink
      else .ok ()

/-- `websocket.rs` `AckStatus`. -/
inductive AckStatus where
  | ok
  | retry
  | failed
deriving DecidableEq, Repr

/-- `websocket.rs` `AckResponse`. -/
structure AckResponse where
  status : AckStatus
  error : Option String
deriving DecidableEq, Repr

/-- `websocket.rs` `ActiveSink`: the slot entry created on registration.
`connId` models `connection.id` (the `Uuid` generated by
`SinkConnection::new`); `waiters` models the key set of the `ack_waiters`
map.  The `oneshot` senders stored in the map are modelled by resolution
events (`SinkEvent.resolveWaiter`) carrying the job id and the delivered
`AckResponse`. -/
structure ActiveSink where
  connId : Nat
  waiters : List String
deriving DecidableEq, Repr

/-- `websocket.rs` `InsertTextPayload`. -/
structure InsertTextPayload where
  text : String
  placement : Option Placement
  source : SourceInfo
  target : Option TargetSpec
  metadata : Json

/-- `websocket.rs` `RelayMessage`. -/
inductive RelayMessage where
  | insertText (schema_version : String) (id : String) (payload : InsertTextPayload)
  | ping (schema_version : String)
  | policy (schema_version : String) (supersede_on_register : Bool) (max_job_bytes : Nat)

/-- `websocket.rs` `SinkMessage`. -/
inductive SinkMessage where
  | register (schema_version : String) (version : String)
      (capabilities : List String) (providers : List String)
  | ack (id : String) (status : AckStatus) (error : Option String)
  | pong
deriving DecidableEq, Repr

/-- The `insert_text` frame built by `SinkManager::dispatch_job`
(websocket.rs lines 140-150) from the arguments it receives. -/
def dispatch_job_frame (jobId : String) (text : String) (placement : Option Placement)
    (source : SourceInfo) (target : Option TargetSpec) (metadata : Json) : RelayMessage :=
  .insertText "1.0" jobId
    { text := text, placement := placement, source := source,
      target := target, metadata := metadata }

/-- The argument tuple `handlers.rs` `append_job` actually supplies to
`dispatch_job` at its call site (lines 56-63): `job_id`, `payload.text`,
`payload.placement`, `payload.metadata`.  The call omits `payload.source`
and `payload.target`, although `dispatch_job` declares six parameters. -/
def append_job_dispatch_args (jobId : String) (r : InsertTextRequest) :
    String × String × Option Placement × Json :=
  (jobId, r.text, r.placement, r.metadata)

/-- Result of `sink.message_sender.send(job_msg)` in `dispatch_job`:
the unbounded mpsc send succeeds unless the receiving half is gone. -/
inductive EnqueueResult where
  | sent
  | closed
deriving DecidableEq, Repr

/-- Outcome of `tokio::time::timeout(timeout, response_rx)` in
`dispatch_job` (websocket.rs lines 161-173): the waiter was fulfilled with
an `AckResponse`, the sender was dropped, or the deadline elapsed. -/
inductive AwaitResult where
  | fulfilled (r : AckResponse)
  | dropped
  | elapsed
deriving DecidableEq, Repr

/-- The terminal outcome `dispatch_job` returns to its caller. -/
inductive DispatchOutcome where
  | ack (r : AckResponse)
  | noSink
  | dispatchTimeout (timeout_ms : Nat)
deriving DecidableEq, Repr

/-- Environment of one `dispatch_job` run: whether the slot read at line
127 found a sink, how the enqueue at line 152 went, how the await at line
161 resolved, and whether the slot re-read at line 165 (after a timeout)
still found a sink. -/
structure DispatchEnv where
  sinkPresent : Bool
  enqueue : EnqueueResult
  awaitRes : AwaitResult
  sinkPresentAtTimeout : Bool
deriving DecidableEq, Repr

/-- Observable actions of one `dispatch_job` run on the shared state, in
program order. -/
inductive DispatchEvent where
  | insertWaiter (id : String)
  | enqueueFrame (id : String)
  | removeWaiter (id : String)
deriving DecidableEq, Repr

/-- `SinkManager::dispatch_job` (websocket.rs lines 118-174): returns the
outcome together with the ordered trace of its actions.  Empty slot →
`NoSink` (line 130).  Otherwise insert the waiter (line 137), then enqueue
the frame (line 152); if the enqueue fails remove the waiter and return
`NoSink` (lines 153-155).  Then await: fulfilled → that response (line
162); sender dropped → `NoSink` (line 163); deadline elapsed → best-effort
waiter removal (lines 165-168, only if the re-read slot is occupied) and
`DispatchTimeout` with the timeout in milliseconds (lines 169-171). -/
def dispatch_run (jobId : String) (timeoutMs : Nat) (e : DispatchEnv) :
    DispatchOutcome × List DispatchEvent :=
  if e.sinkPresent = false then (.noSink, [])
  else
    match e.enqueue with
    | .closed => (.noSink, [.insertWaiter jobId, .removeWaiter jobId])
    | .sent =>
      match e.awaitRes with
      | .fulfilled r => (.ack r, [.insertWaiter jobId, .enqueueFrame jobId])
      | .dropped => (.noSink, [.insertWaiter jobId, .enqueueFrame jobId])
      | .elapsed =>
        (.dispatchTimeout timeoutMs,
          [.insertWaiter jobId, .enqueueFrame jobId] ++
            (if e.sinkPresentAtTimeout then [.removeWaiter jobId] else []))

/-- Per-session mutable state of the reader loop in `handle_websocket`
(websocket.rs lines 186-190): `registered`, `missed_pings`,
`awaiting_pong`, `last_ping` (a timestamp, `None` before the first ping). -/
structure SessionState where
  registered : Bool
  missed_pings : Nat
  awaiting_pong : Bool
  last_ping : Option Nat
deriving DecidableEq, Repr

/-- Observable actions of the session on the shared registry state:
resolving a waiter's oneshot channel with a response, or publishing a new
registration into the slot. -/
inductive SinkEvent where
  | resolveWaiter (id : String) (resp : AckResponse)
  | publishSink (connId : Nat)
deriving DecidableEq, Repr

/-- `ActiveSink::drain_waiters` (websocket.rs lines 414-425): drain every
entry of the waiter table and send each sender the given status with
`Some(reason)`. -/
def drain_waiters (s : ActiveSink) (status : AckStatus) (reason : String) : List SinkEvent :=
  s.waiters.map (fun w => .resolveWaiter w { status := status, error := some reason })

/-- Successful result of `handle_sink_message`: the session state after
the call (`last_ping` is never touched by it), the registry slot after the
call, and the ordered events it performed. -/
structure HandleOk where
  st : SessionState
  slot : Option ActiveSink
  events : List SinkEvent
deriving DecidableEq, Repr

/-- `SinkManager::handle_sink_message` (websocket.rs lines 325-411).
`policyDelivered` is the result of the `message_tx.send(policy_msg)` at
line 361; `newConnId` is the fresh `Uuid` from `SinkConnection::new`.
Register arm (335-387): wrong schema version → error; failed policy send
→ error; slot occupied and supersession disabled → error; otherwise the
existing occupant (if any) is drained with `retry` and reason
"Superseded by new sink", the new sink is published with an empty waiter
table, and `registered` is set.  Ack arm (389-400): look up the id in the
ACTIVE sink's waiter table; if present remove it and fulfil it with the
ack's status and error; unknown ids (or an empty slot) are dropped.  Pong
arm (402-407): reset `missed_pings` to 0 and clear `awaiting_pong`
unconditionally. -/
def handle_sink_message (supersede_on_register : Bool) (policyDelivered : Bool)
    (newConnId : Nat) (msg : SinkMessage) (slot : Option ActiveSink) (st : SessionState) :
    Except String HandleOk :=
  match msg with
  | .register schema_version _version _capabilities _providers =>
    if schema_version ≠ "1.0" then
      .error ("Unsupported schema version: " ++ schema_version)
    else if policyDelivered = false then
      .error "Failed to deliver policy"
    else if slot.isSome && !supersede_on_register then
      .error "A sink is already registered"
    else
      let drained :=
        match slot with
        | some old => drain_waiters old .retry "Superseded by new sink"
        | none => []
      .ok { st := { st with registered := true },
            slot := some { connId := newConnId, waiters := [] },
            events := drained ++ [.publishSink newConnId] }
  | .ack id status errMsg =>
    match slot with
    | some sink =>
      if id ∈ sink.waiters then
        .ok { st := st,
              slot := some { sink with waiters := sink.waiters.erase id },
              events := [.resolveWaiter id { status := status, error := errMsg }] }
      else
        .ok { st := st, slot := slot, events := [] }
    | none => .ok { st := st, slot := slot, events := [] }
  | .pong =>
    .ok { st := { st with missed_pings := 0, awaiting_pong := false },
          slot := slot, events := [] }

/-- The liveness leniency applied by the reader loop after every
successfully handled frame (websocket.rs lines 213-221): if
`awaiting_pong` is (still) set and a ping was sent within `pong_timeout`
of `now`, clear `awaiting_pong` and reset `missed_pings`; otherwise leave
the state unchanged. -/
def liveness_leniency (pong_timeout now : Nat) (st : SessionState) : SessionState :=
  if st.awaiting_pong then
    match st.last_ping with
    | some lp =>
      if now - lp ≤ pong_timeout then { st with awaiting_pong := false, missed_pings := 0 }
      else st
    | none => st
  else st

/-- One well-formed Text frame through the reader loop (websocket.rs lines
197-232): run `handle_sink_message`; on success apply `liveness_leniency`
to the resulting session state.  A `handle_sink_message` error breaks the
loop (the session heads to cleanup). -/
def reader_on_text (supersede_on_register : Bool) (policyDelivered : Bool) (newConnId : Nat)
    (pong_timeout : Nat) (now : Nat) (msg : SinkMessage) (slot : Option ActiveSink)
    (st : SessionState) : Except String HandleOk :=
  match handle_sink_message supersede_on_register policyDelivered newConnId msg slot st with
  | .error e => .error e
  | .ok r => .ok { r with st := liveness_leniency pong_timeout now r.st }

/-- The cleanup block at the end of the reader task (websocket.rs lines
288-297): `active_sink.take()` removes WHATEVER sink currently occupies
the slot — the code performs no check that the occupant is this session's
own registration — and drains its waiters with `retry` and reason
"Sink disconnected".  `selfConnId` is the connection id of the session
running the cleanup; the code never consults it. -/
def session_cleanup (_selfConnId : Nat) (slot : Option ActiveSink) :
    Option ActiveSink × List SinkEvent :=
  match slot with
  | some sink => (none, drain_waiters sink .retry "Sink disconnected")
  | none => (none, [])

/-- Result of one ping-interval tick: the reader loop either keeps running
with an updated state or breaks out (the session heads to cleanup). -/
inductive TickResult where
  | closing (st : SessionState)
  | running (st : SessionState)
deriving DecidableEq, Repr

/-- The tail of the tick arm (websocket.rs lines 274-280): when not
`awaiting_pong`, enqueue a `ping` frame; a failed send breaks the loop;
otherwise set `awaiting_pong` and record `last_ping := now`.  The returned
`Bool` says whether a ping frame was enqueued on this tick. -/
def send_ping_step (now : Nat) (sendOk : Bool) (st : SessionState) :
    TickResult × Bool :=
  if st.awaiting_pong = false then
    if sendOk then
      (.running { st with awaiting_pong := true, last_ping := some now }, true)
    else (.closing st, false)
  else (.running st, false)

/-- The `ping_interval.tick()` arm of the reader loop (websocket.rs lines
253-282).  Unregistered sessions do nothing.  If `awaiting_pong` with a
recorded `last_ping` and `now - last_ping ≥ pong_timeout`: increment
`missed_pings`; if it reaches `max_missed_pings` break the loop; otherwise
clear `awaiting_pong` and fall through to `send_ping_step`, which sends a
fresh ping on this same tick.  If still within the timeout window, do
nothing.  If `awaiting_pong` with no `last_ping` recorded, the fall
through finds `awaiting_pong` still set and sends nothing. -/
def ping_tick (pong_timeout max_missed_pings now : Nat) (sendOk : Bool)
    (st : SessionState) : TickResult × Bool :=
  if st.registered = false then (.running st, false)
  else if st.awaiting_pong then
    match st.last_ping with
    | some lp =>
      if pong_timeout ≤ now - lp then
        let st1 := { st with missed_pings := st.missed_pings + 1 }
        if max_missed_pings ≤ st1.missed_pings then (.closing st1, false)
        else send_ping_step now sendOk { st1 with awaiting_pong := false }
      else (.running st, false)
    | none => send_ping_step now sendOk st
  else send_ping_step now sendOk st

/-- C1: every dispatched job observes exactly one terminal outcome, and the
outcome is determined by the run environment as the spec states: empty slot
→ NoSink; enqueue onto a closed queue → waiter removed and NoSink; waiter
fulfilled → the sink's AckResponse; sender dropped → NoSink; deadline
elapsed → best-effort waiter removal and DispatchTimeout carrying the
timeout in milliseconds. -/
theorem dispatch_outcome_cases (jobId : String) (timeoutMs : Nat) (e : DispatchEnv) :
    ((dispatch_run jobId timeoutMs e).1 = .noSink ∨
      (∃ r, (dispatch_run jobId timeoutMs e).1 = .ack r) ∨
      (dispatch_run jobId timeoutMs e).1 = .dispatchTimeout timeoutMs) ∧
    (e.sinkPresent = false → (dispatch_run jobId timeoutMs e).1 = .noSink) ∧
    (e.sinkPresent = true → e.enqueue = .closed →
      (dispatch_run jobId timeoutMs e).1 = .noSink ∧
      DispatchEvent.removeWaiter jobId ∈ (dispatch_run jobId timeoutMs e).2) ∧
    (e.sinkPresent = true → e.enqueue = .sent → ∀ r, e.awaitRes = .fulfilled r →
      (dispatch_run jobId timeoutMs e).1 = .ack r) ∧
    (e.sinkPresent = true → e.enqueue = .sent → e.awaitRes = .dropped →
      (dispatch_run jobId timeoutMs e).1 = .noSink) ∧
    (e.sinkPresent = true → e.enqueue = .sent → e.awaitRes = .elapsed →
      (dispatch_run jobId timeoutMs e).1 = .dispatchTimeout timeoutMs ∧
      (e.sinkPresentAtTimeout = true →
        DispatchEvent.removeWaiter jobId ∈ (dispatch_run jobId timeoutMs e).2)) := by
  obtain ⟨sp, enq, aw, spt⟩ := e
  cases sp <;> cases enq <;> rcases aw with ⟨r⟩ | _ | _ <;> cases spt <;>
    simp [dispatch_run]

/-- Witness for C1: a run with an empty sink slot returns NoSink. -/
theorem dispatch_outcome_cases_witness :
    (dispatch_run "j1" 30000
        { sinkPresent := false, enqueue := .sent, awaitRes := .dropped,
          sinkPresentAtTimeout := false }).1 = .noSink :=
  (dispatch_outcome_cases "j1" 30000
    { sinkPresent := false, enqueue := .sent, awaitRes := .dropped,
      sinkPresentAtTimeout := false }).2.1 rfl

/-- C2 (failing input): session 1 was superseded, so the slot holds session
2's sink with the pending waiter "job1"; when session 1's reader loop exits,
its cleanup nevertheless empties the slot and drains session 2's waiter with
retry and reason "Sink disconnected" — the code performs `active_sink.take()`
without checking that the occupant is its own registration. -/
theorem cleanup_takes_slot_unconditionally :
    session_cleanup 1 (some { connId := 2, waiters := ["job1"] }) =
      (none,
        [.resolveWaiter "job1" { status := .retry, error := some "Sink disconnected" }]) := rfl

/-- C7 (counterexample): a request violating the schema-version rule whose
serialization (134 bytes) also exceeds `max_job_bytes = 10` fails with
`payload_too_large`, not `invalid_request`: `append_job` checks the size
bound before running `validate`. -/
theorem oversized_invalid_request_reports_payload_too_large :
    append_job_check 134 10 false false
        { schema_version := "2.0",
          source := { client := "cli", label := none, path := none },
          text := "hi", placement := none, target := none, metadata := .null } =
      .error (.payloadTooLarge 134 10) := rfl

/-- C7 (amended): the serialized-size bound is applied first — an oversized
request fails with `payload_too_large` even when it also violates a field
rule; for requests within the bound, the field rules apply in order schema
version, `source.client`, `text`, `target.provider`, each failing with
`invalid_request`. -/
theorem ingress_check_order (payloadSize maxJobBytes : Nat)
    (requireSink hasActiveSink : Bool) (r : InsertTextRequest) :
    (maxJobBytes < payloadSize →
      append_job_check payloadSize maxJobBytes requireSink hasActiveSink r =
        .error (.payloadTooLarge payloadSize maxJobBytes)) ∧
    (payloadSize ≤ maxJobBytes → r.schema_version ≠ "1.0" →
      append_job_check payloadSize maxJobBytes requireSink hasActiveSink r =
        .error (.invalidRequest (.invalidSchemaVersion r.schema_version))) ∧
    (payloadSize ≤ maxJobBytes → r.schema_version = "1.0" → r.source.client = "" →
      append_job_check payloadSize maxJobBytes requireSink hasActiveSink r =
        .error (.invalidRequest (.missingField "source.client"))) ∧
    (payloadSize ≤ maxJobBytes → r.schema_version = "1.0" → r.source.client ≠ "" →
      rustTrim r.text = "" →
      append_job_check payloadSize maxJobBytes requireSink hasActiveSink r =
        .error (.invalidRequest .emptySnippet)) ∧
    (∀ t p, payloadSize ≤ maxJobBytes → r.schema_version = "1.0" → r.source.client ≠ "" →
      rustTrim r.text ≠ "" → r.target = some t → t.provider = some p → rustTrim p = "" →
      append_job_check payloadSize maxJobBytes requireSink hasActiveSink r =
        .error (.invalidRequest (.missingField "target.provider"))) := by
  refine ⟨?_, ?_, ?_, ?_, ?_⟩
  · intro h
    simp [append_job_check, h]
  · intro hle hsv
    simp [append_job_check, InsertTextRequest.validate, Nat.not_lt.mpr hle, hsv]
  · intro hle hsv hc
    simp [append_job_check, InsertTextRequest.validate, Nat.not_lt.mpr hle, hsv, hc]
  · intro hle hsv hc ht
    simp [append_job_check, InsertTextRequest.validate, Nat.not_lt.mpr hle, hsv, hc, ht]
  · intro t p hle hsv hc ht htg hp hpt
    simp [append_job_check, InsertTextRequest.validate, Nat.not_lt.mpr hle, hsv, hc, ht,
      htg, hp, hpt]

/-- Witness for the amended C7: a within-bounds request with a wrong schema
version fails with `invalid_request` on the schema rule. -/
theorem ingress_check_order_witness :
    append_job_check 50 100 false false
        { schema_version := "0.9",
          source := { client := "cli", label := none, path := none },
          text := "hi", placement := none, target := none, metadata := .null } =
      .error (.invalidRequest (.invalidSchemaVersion "0.9")) :=
  (ingress_check_order 50 100 false false
    { schema_version := "0.9",
      source := { client := "cli", label := none, path := none },
      text := "hi", placement := none, target := none, metadata := .null }).2.1
    (by decide) (by decide)

/-- C3: under supersession (valid register frame, occupied slot,
`supersede_on_register` true), `handle_sink_message` succeeds and its event
sequence is the drain of every prior waiter followed by the publish of the
new sink: each prior waiter is resolved with `retry` and error
"Superseded by new sink", all of them strictly before the publish, which is
the last event.  The whole sequence runs inside the registry write-lock
critical section (websocket.rs line 367), so no dispatch can observe the
new sink before the drain completes. -/
theorem supersede_drains_before_publish (newConnId : Nat) (version : String)
    (capabilities providers : List String) (old : ActiveSink) (st : SessionState) :
    handle_sink_message true true newConnId
        (.register "1.0" version capabilities providers) (some old) st =
      .ok { st := { st with registered := true },
            slot := some { connId := newConnId, waiters := [] },
            events := drain_waiters old .retry "Superseded by new sink" ++
              [.publishSink newConnId] } ∧
    (∀ w ∈ old.waiters,
      SinkEvent.resolveWaiter w { status := .retry, error := some "Superseded by new sink" } ∈
        (drain_waiters old .retry "Superseded by new sink" ++
          [SinkEvent.publishSink newConnId]).take
          ((drain_waiters old .retry "Superseded by new sink" ++
            [SinkEvent.publishSink newConnId]).length - 1)) ∧
    (drain_waiters old .retry "Superseded by new sink" ++
      [SinkEvent.publishSink newConnId]).getLast? = some (.publishSink newConnId) := by
  refine ⟨?_, ?_, ?_⟩
  · simp [handle_sink_message, drain_waiters]
  · intro w hw
    have hlen : (drain_waiters old .retry "Superseded by new sink" ++
        [SinkEvent.publishSink newConnId]).length =
        (drain_waiters old .retry "Superseded by new sink").length + 1 := by
      simp
    rw [hlen, Nat.add_sub_cancel, List.take_left]
    exact List.mem_map_of_mem _ hw
  · exact List.getLast?_concat _

/-- Witness for C3: the single waiter of a superseded sink is resolved
before the publish event. -/
theorem supersede_drains_before_publish_witness :
    SinkEvent.resolveWaiter "j" { status := .retry, error := some "Superseded by new sink" } ∈
      (drain_waiters { connId := 2, waiters := ["j"] } .retry "Superseded by new sink" ++
        [SinkEvent.publishSink 9]).take
        ((drain_waiters { connId := 2, waiters := ["j"] } .retry "Superseded by new sink" ++
          [SinkEvent.publishSink 9]).length - 1) :=
  (supersede_drains_before_publish 9 "1.2.3" [] [] { connId := 2, waiters := ["j"] }
    { registered := false, missed_pings := 0, awaiting_pong := false,
      last_ping := none }).2.1 "j" (by decide)

/-- Helper: if the head of an event trace is the waiter insertion, every
occurrence of the frame enqueue is strictly preceded by it. -/
theorem exists_earlier_insert {id : String} {l : List DispatchEvent}
    (h0 : ∀ h : 0 < l.length, l.get ⟨0, h⟩ = .insertWaiter id)
    (i : Fin l.length) (hi : l.get i = .enqueueFrame id) :
    ∃ j : Fin l.length, (j : Nat) < (i : Nat) ∧ l.get j = .insertWaiter id := by
  have hpos : 0 < l.length := i.pos
  have hne : (i : Nat) ≠ 0 := by
    intro h0i
    have heq : l.get i = .insertWaiter id := by
      have : i = ⟨0, hpos⟩ := Fin.ext h0i
      rw [this]
      exact h0 hpos
    rw [hi] at heq
    cases heq
  exact ⟨⟨0, hpos⟩, Nat.pos_of_ne_zero hne, h0 hpos⟩

/-- C4: in every dispatch run, any `enqueueFrame` event for the job is
strictly preceded by the `insertWaiter` event for that job: the frame is
never handed to the outbound queue before its waiter is registered, so an
ack arriving immediately after the frame always finds its waiter. -/
theorem waiter_registered_before_frame (jobId : String) (timeoutMs : Nat) (e : DispatchEnv)
    (i : Fin (dispatch_run jobId timeoutMs e).2.length)
    (hi : (dispatch_run jobId timeoutMs e).2.get i = .enqueueFrame jobId) :
    ∃ j : Fin (dispatch_run jobId timeoutMs e).2.length,
      (j : Nat) < (i : Nat) ∧
      (dispatch_run jobId timeoutMs e).2.get j = .insertWaiter jobId := by
  refine exists_earlier_insert ?_ i hi
  intro h
  obtain ⟨sp, enq, aw, spt⟩ := e
  cases sp <;> cases enq <;> rcases aw with ⟨r⟩ | _ | _ <;> cases spt <;>
    first
      | (simp [dispatch_run]; done)
      | exact False.elim (by simpa [dispatch_run] using h)

/-- Witness for C4: in a successful enqueue run the frame event at index 1
is preceded by the waiter insertion. -/
theorem waiter_registered_before_frame_witness :
    ∃ j : Fin (dispatch_run "j2" 1000
        { sinkPresent := true, enqueue := .sent, awaitRes := .dropped,
          sinkPresentAtTimeout := false }).2.length,
      (j : Nat) < 1 ∧
      (dispatch_run "j2" 1000
        { sinkPresent := true, enqueue := .sent, awaitRes := .dropped,
          sinkPresentAtTimeout := false }).2.get j = .insertWaiter "j2" :=
  waiter_registered_before_frame "j2" 1000
    { sinkPresent := true, enqueue := .sent, awaitRes := .dropped,
      sinkPresentAtTimeout := false } ⟨1, by decide⟩ (by decide)

/-- C8: the argument tuple `append_job` forwards to `dispatch_job` is
invariant under changing the request's `source` and `target` — the call
site passes only `job_id`, `text`, `placement`, `metadata`, so the
request's `source` and `target` can never reach the dispatched frame
through it (while `dispatch_job` itself expects them as parameters and
embeds them in the `insert_text` payload, cf. `dispatch_job_frame`). -/
theorem append_job_omits_source_target (jobId : String) (r : InsertTextRequest)
    (src : SourceInfo) (tgt : Option TargetSpec) :
    append_job_dispatch_args jobId { r with source := src, target := tgt } =
      append_job_dispatch_args jobId r := rfl

/-- C10: a request whose `source.client` is a non-empty all-whitespace
string passes validation when its other fields are valid: the client field
is tested with `is_empty()` without trimming. -/
theorem whitespace_client_passes_validation (r : InsertTextRequest)
    (hschema : r.schema_version = "1.0")
    (hne : r.source.client ≠ "")
    (hws : ∀ c ∈ r.source.client.data, c.isWhitespace)
    (htext : rustTrim r.text ≠ "")
    (hprov : ∀ t, r.target = some t → ∀ p, t.provider = some p → rustTrim p ≠ "") :
    r.validate = .ok () := by
  unfold InsertTextRequest.validate
  rw [if_neg (by simp [hschema]), if_neg hne, if_neg htext]
  rcases htg : r.target with _ | t
  · rfl
  · rcases hp : t.provider with _ | p
    · simp [hp]
    · simp [hp, hprov t htg p hp]

/-- Witness for C10: a request whose client is a single space validates. -/
theorem whitespace_client_passes_validation_witness :
    InsertTextRequest.validate
        { schema_version := "1.0",
          source := { client := " ", label := none, path := none },
          text := "hi", placement := none, target := none, metadata := .null } = .ok () :=
  whitespace_client_passes_validation _ rfl (by decide) (by decide) (by decide) (by simp)

/-- Helper: the liveness leniency never touches the `registered` flag. -/
theorem liveness_leniency_registered (pong_timeout now : Nat) (st : SessionState) :
    (liveness_leniency pong_timeout now st).registered = st.registered := by
  unfold liveness_leniency
  split
  · split
    · split <;> rfl
    · rfl
  · rfl

/-- Helper: a non-register message handled successfully leaves
`missed_pings`, `awaiting_pong` and `last_ping` unchanged unless it is a
pong; an ack in particular changes none of them. -/
theorem handle_preserves_liveness (supersede policyDelivered : Bool) (newConnId : Nat)
    (msg : SinkMessage) (slot : Option ActiveSink) (st : SessionState) (r : HandleOk)
    (hmsg : msg ≠ .pong)
    (h : handle_sink_message supersede policyDelivered newConnId msg slot st = .ok r) :
    r.st.missed_pings = st.missed_pings ∧ r.st.awaiting_pong = st.awaiting_pong ∧
      r.st.last_ping = st.last_ping := by
  rcases msg with ⟨sv, v, c, p⟩ | ⟨id, status, em⟩ | _
  · simp only [handle_sink_message] at h
    split at h
    · cases h
    · split at h
      · cases h
      · split at h
        · cases h
        · cases h
          exact ⟨rfl, rfl, rfl⟩
  · simp only [handle_sink_message] at h
    rcases slot with _ | sink
    · cases h
      exact ⟨rfl, rfl, rfl⟩
    · by_cases hmem : id ∈ sink.waiters
      · simp only [hmem, if_pos] at h
        cases h
        exact ⟨rfl, rfl, rfl⟩
      · simp only [hmem, if_neg, if_false] at h
        cases h
        exact ⟨rfl, rfl, rfl⟩
  · exact absurd rfl hmsg

/-- C5 (counterexample): an `ack` arriving as the FIRST frame of a fresh,
unregistered session is processed, not rejected — the session stays open
(the handler returns Ok and the loop continues with `registered = false`)
and the currently active sink's waiter table IS mutated: its waiter "j" is
removed and fulfilled. -/
theorem ack_before_register_mutates_active_sink :
    reader_on_text true true 5 10 0 (.ack "j" .ok none)
        (some { connId := 7, waiters := ["j"] })
        { registered := false, missed_pings := 0, awaiting_pong := false, last_ping := none } =
      .ok { st := { registered := false, missed_pings := 0, awaiting_pong := false,
                    last_ping := none },
            slot := some { connId := 7, waiters := [] },
            events := [.resolveWaiter "j" { status := .ok, error := none }] } := rfl

/-- C5 (amended): a non-register frame received while the session is
unregistered does NOT close the session and publishes no registration: the
handler succeeds, `registered` is unchanged, no publish event is emitted; a
pong only resets this session's liveness counters, while an ack is applied
to the currently active sink's waiter table, removing and fulfilling the
matching waiter when there is one. -/
theorem nonregister_frame_keeps_session_open (msg : SinkMessage)
    (hmsg : ∀ sv v c p, msg ≠ .register sv v c p)
    (supersede policyDelivered : Bool) (newConnId pong_timeout now : Nat)
    (slot : Option ActiveSink) (st : SessionState) :
    ∃ r : HandleOk,
      reader_on_text supersede policyDelivered newConnId pong_timeout now msg slot st = .ok r ∧
      r.st.registered = st.registered ∧
      (∀ c, SinkEvent.publishSink c ∉ r.events) ∧
      (msg = .pong → r.slot = slot ∧ r.events = []) ∧
      (∀ (id : String) (status : AckStatus) (em : Option String) (sink : ActiveSink),
        msg = .ack id status em → slot = some sink → id ∈ sink.waiters →
        r.slot = some { sink with waiters := sink.waiters.erase id } ∧
        r.events = [.resolveWaiter id { status := status, error := em }]) := by
  rcases msg with ⟨sv, v, c, p⟩ | ⟨id, status, em⟩ | _
  · exact absurd rfl (hmsg sv v c p)
  · rcases slot with _ | sink
    · refine ⟨({ st := liveness_leniency pong_timeout now st, slot := none,
                 events := [] } : HandleOk), ?_, ?_, ?_, ?_, ?_⟩
      · simp [reader_on_text, handle_sink_message]
      · exact liveness_leniency_registered pong_timeout now st
      · simp
      · intro h
        cases h
      · intro id2 s2 e2 sink2 _ hslot
        cases hslot
    · by_cases hmem : id ∈ sink.waiters
      · refine ⟨({ st := liveness_leniency pong_timeout now st,
                   slot := some { sink with waiters := sink.waiters.erase id },
                   events := [.resolveWaiter id { status := status, error := em }] } :
            HandleOk), ?_, ?_, ?_, ?_, ?_⟩
        · simp [reader_on_text, handle_sink_message, hmem]
        · exact liveness_leniency_registered pong_timeout now st
        · simp
        · intro h
          cases h
        · intro id2 s2 e2 sink2 heq hslot _
          cases heq
          cases hslot
          exact ⟨rfl, rfl⟩
      · refine ⟨({ st := liveness_leniency pong_timeout now st, slot := some sink,
                   events := [] } : HandleOk), ?_, ?_, ?_, ?_, ?_⟩
        · simp [reader_on_text, handle_sink_message, hmem]
        · exact liveness_leniency_registered pong_timeout now st
        · simp
        · intro h
          cases h
        · intro id2 s2 e2 sink2 heq hslot hmem2
          cases heq
          cases hslot
          exact absurd hmem2 hmem
  · refine ⟨({ st := { st with missed_pings := 0, awaiting_pong := false }, slot := slot,
               events := [] } : HandleOk), ?_, rfl, ?_, ?_, ?_⟩
    · simp [reader_on_text, handle_sink_message, liveness_leniency]
    · simp
    · exact fun _ => ⟨rfl, rfl⟩
    · intro id2 s2 e2 sink2 heq
      cases heq

/-- Witness for the amended C5: a pong as the first frame of an
unregistered session. -/
theorem nonregister_frame_keeps_session_open_witness :
    ∃ r : HandleOk,
      reader_on_text true true 0 10 0 .pong none
          { registered := false, missed_pings := 1, awaiting_pong := false,
            last_ping := none } = .ok r ∧
      r.st.registered = false ∧
      (∀ c, SinkEvent.publishSink c ∉ r.events) ∧
      (SinkMessage.pong = .pong → r.slot = none ∧ r.events = []) ∧
      (∀ (id : String) (status : AckStatus) (em : Option String) (sink : ActiveSink),
        SinkMessage.pong = .ack id status em → none = some sink → id ∈ sink.waiters →
        r.slot = some { sink with waiters := sink.waiters.erase id } ∧
        r.events = [.resolveWaiter id { status := status, error := em }]) :=
  nonregister_frame_keeps_session_open .pong (fun _ _ _ _ h => nomatch h) true true 0 10 0
    none { registered := false, missed_pings := 1, awaiting_pong := false, last_ping := none }

/-- C6 (counterexample): ping tick in the registered state with
`awaiting_pong` set, `pong_timeout = 10`, a ping sent at time 0 and
`now = 10`, `max_missed_pings = 3`: the miss is recorded
(`missed_pings = 1 < 3`) and a FRESH PING IS SENT ON THE SAME TICK —
`awaiting_pong` ends up set again with `last_ping = now` and the tick
enqueued a ping frame, contrary to the claim that no fresh ping is sent
until the next tick. -/
theorem missed_ping_resends_same_tick :
    ping_tick 10 3 10 true
        { registered := true, missed_pings := 0, awaiting_pong := true, last_ping := some 0 } =
      (.running { registered := true, missed_pings := 1, awaiting_pong := true,
                  last_ping := some 10 }, true) := by
  decide

/-- C6 (amended): on a ping tick in the REGISTERED state with
`awaiting_pong` set and `now - last_ping_sent_at ≥ pong_timeout`,
`missed_pings` is incremented; if it has reached `max_missed_pings` the
session transitions to CLOSING; otherwise `awaiting_pong` is cleared and a
fresh ping is sent immediately on the SAME tick (re-setting
`awaiting_pong` and recording `last_ping_sent_at = now`), or the session
closes if the ping cannot be enqueued. -/
theorem ping_tick_timeout_behaviour (pong_timeout max_missed now lp : Nat) (sendOk : Bool)
    (st : SessionState) (hreg : st.registered = true) (haw : st.awaiting_pong = true)
    (hlp : st.last_ping = some lp) (helapsed : pong_timeout ≤ now - lp) :
    (max_missed ≤ st.missed_pings + 1 →
      ping_tick pong_timeout max_missed now sendOk st =
        (.closing { st with missed_pings := st.missed_pings + 1 }, false)) ∧
    (st.missed_pings + 1 < max_missed → sendOk = true →
      ping_tick pong_timeout max_missed now sendOk st =
        (.running { st with missed_pings := st.missed_pings + 1, awaiting_pong := true,
                            last_ping := some now }, true)) ∧
    (st.missed_pings + 1 < max_missed → sendOk = false →
      ping_tick pong_timeout max_missed now sendOk st =
        (.closing { st with missed_pings := st.missed_pings + 1, awaiting_pong := false },
          false)) := by
  refine ⟨?_, ?_, ?_⟩
  · intro hmax
    simp [ping_tick, hreg, haw, hlp, helapsed, hmax]
  · intro hlt hsend
    simp [ping_tick, send_ping_step, hreg, haw, hlp, helapsed, Nat.not_le.mpr hlt, hsend]
  · intro hlt hsend
    simp [ping_tick, send_ping_step, hreg, haw, hlp, helapsed, Nat.not_le.mpr hlt, hsend]

/-- Witness for the amended C6: with `max_missed_pings = 1` the first
missed pong closes the session. -/
theorem ping_tick_timeout_behaviour_witness :
    ping_tick 10 1 10 true
        { registered := true, missed_pings := 0, awaiting_pong := true, last_ping := some 0 } =
      (.closing { registered := true, missed_pings := 1, awaiting_pong := true,
                  last_ping := some 0 }, false) :=
  (ping_tick_timeout_behaviour 10 1 10 0 true
    { registered := true, missed_pings := 0, awaiting_pong := true, last_ping := some 0 }
    rfl rfl rfl (by decide)).1 (by decide)

/-- C9: a pong resets `missed_pings` to 0 and clears `awaiting_pong`
unconditionally — also when no ping is outstanding and also when it comes
later than `pong_timeout` after the last ping — whereas a non-pong
well-formed frame resets them only while `awaiting_pong` is set and a
last ping exists within `pong_timeout` of `now`; otherwise it leaves them
unchanged. -/
theorem liveness_reset_rules (supersede policyDelivered : Bool)
    (newConnId pong_timeout now : Nat) (slot : Option ActiveSink) (st : SessionState) :
    (∀ r, reader_on_text supersede policyDelivered newConnId pong_timeout now .pong slot st =
        .ok r → r.st.missed_pings = 0 ∧ r.st.awaiting_pong = false) ∧
    (∀ msg r, msg ≠ .pong →
      reader_on_text supersede policyDelivered newConnId pong_timeout now msg slot st =
        .ok r →
      ((st.awaiting_pong = true ∧ ∃ lp, st.last_ping = some lp ∧ now - lp ≤ pong_timeout) →
        r.st.missed_pings = 0 ∧ r.st.awaiting_pong = false) ∧
      (∀ lp, st.awaiting_pong = true → st.last_ping = some lp → pong_timeout < now - lp →
        r.st.missed_pings = st.missed_pings ∧ r.st.awaiting_pong = st.awaiting_pong) ∧
      (st.awaiting_pong = false →
        r.st.missed_pings = st.missed_pings ∧ r.st.awaiting_pong = st.awaiting_pong)) := by
  constructor
  · intro r hr
    simp only [reader_on_text, handle_sink_message] at hr
    cases hr
    simp [liveness_leniency]
  · intro msg r hmsg hr
    cases hh : handle_sink_message supersede policyDelivered newConnId msg slot st with
    | error e =>
      rw [reader_on_text, hh] at hr
      cases hr
    | ok r0 =>
      rw [reader_on_text, hh] at hr
      obtain ⟨hm, ha, hl⟩ :=
        handle_preserves_liveness supersede policyDelivered newConnId msg slot st r0 hmsg hh
      cases hr
      refine ⟨?_, ?_, ?_⟩
      · rintro ⟨haw, lp, hlp, hle⟩
        simp [liveness_leniency, ha, haw, hl, hlp, hle]
      · intro lp haw hlp hgt
        simp [liveness_leniency, ha, haw, hl, hlp, Nat.not_le.mpr hgt, hm]
      · intro haw
        simp [liveness_leniency, ha, haw, hm]

/-- Witness for C9: a pong with no ping outstanding still resets the
counters. -/
theorem liveness_reset_rules_witness :
    (HandleOk.mk ⟨true, 0, false, some 0⟩ none []).st.missed_pings = 0 ∧
    (HandleOk.mk ⟨true, 0, false, some 0⟩ none []).st.awaiting_pong = false :=
  (liveness_reset_rules true true 0 10 99 none
      { registered := true, missed_pings := 2, awaiting_pong := true,
        last_ping := some 0 }).1
    (HandleOk.mk ⟨true, 0, false, some 0⟩ none []) rfl

end Promptivd
